import Mathlib

/-!
# Verification of the `llms_compare` streaming inference gateway

Shallow embedding of the repository's core: the chat store
(`src/stores/chat.ts`), the streaming protocol adapters and `streamChat`
(`src/utils/api.ts`, shipped inside `src/types/config.ts` in this snapshot),
the search providers (`src/utils/search.ts`) and the per-turn orchestration
in `ChatView.vue` (`sendToPanel`, `performSearch`, `removePanel`,
`clearPanel`).

JavaScript runtime values flowing out of `JSON.parse` are modelled by the
inductive `Json` below; `JSON.parse` itself, `fetch`, and the HTTP responses
are external collaborators and enter the model as explicit parameters.
-/

namespace LlmsCompare

/-! ## JavaScript values

A parsed JSON value.  Numbers are idealized as rationals (JS uses IEEE
doubles; no claim in this development observes rounding, `NaN` or
`Infinity`). -/

inductive Json where
  | null : Json
  | bool (b : Bool) : Json
  | num (q : Rat) : Json
  | str (s : String) : Json
  | arr (elems : List Json) : Json
  | obj (fields : List (String × Json)) : Json
  deriving Repr

/-- Property access `j.f`.  On an object: first binding of the field (parsed
objects carry unique keys).  On any other value the access yields
`undefined` (for `null` the JS engine throws a `TypeError`; every access
site modelled here either sits inside a `try` that skips the frame or is
only exercised on objects, so `undefined` and the throw are
indistinguishable for the claims). -/
def Json.getField : Json → String → Option Json
  | .obj fields, name => (fields.find? (fun f => f.1 == name)).map (·.2)
  | _, _ => none

/-- Index access `j[i]` with a numeric index, as used by
`choices?.[0]` / `parts?.[0]`: element of an array, field `"0"`… of an
object, `undefined` otherwise. -/
def Json.getIndex : Json → Nat → Option Json
  | .arr elems, i => elems.get? i
  | .obj fields, i => (fields.find? (fun f => f.1 == toString i)).map (·.2)
  | _, _ => none

/-- JS truthiness of a value (`if (content)` …). -/
def jsTruthy : Json → Bool
  | .null => false
  | .bool b => b
  | .num q => q != 0
  | .str s => s != ""
  | .arr _ => true
  | .obj _ => true

/-- JS string coercion, as performed by `lastMsg.content + chunk` and by
template literals.  Array/number printing is idealized (no claim feeds a
non-string into a coercion site). -/
def jsToString : Json → String
  | .null => "null"
  | .bool true => "true"
  | .bool false => "false"
  | .num q => toString q
  | .str s => s
  | .arr _ => ""
  | .obj _ => "[object Object]"

/-- Coercion of a possibly-`undefined` value (template literals print
`undefined` for a missing field). -/
def jsOptToString : Option Json → String
  | none => "undefined"
  | some j => jsToString j

/-- An abstract `JSON.parse`: `none` models a thrown `SyntaxError`. -/
abbrev JsonParse := String → Option Json

/-! JS string builtins used by the stream loops, implemented over the
character list so they compute by kernel reduction. -/

/-- `String.prototype.trim`: strip leading/trailing whitespace. -/
def jsTrim (s : String) : String :=
  ⟨((s.data.dropWhile Char.isWhitespace).reverse.dropWhile Char.isWhitespace).reverse⟩

/-- `String.prototype.startsWith`. -/
def jsStartsWith (s pre : String) : Bool :=
  pre.data.isPrefixOf s.data

/-- `String.prototype.slice(n)` (drop the first `n` characters). -/
def jsSlice (s : String) (n : Nat) : String :=
  ⟨s.data.drop n⟩

/-- Worker for `split('\n')`: accumulate the current segment (reversed). -/
def splitNewlineAux : List Char → List Char → List String
  | [], acc => [⟨acc.reverse⟩]
  | c :: rest, acc =>
      if c = '\n' then ⟨acc.reverse⟩ :: splitNewlineAux rest []
      else splitNewlineAux rest (c :: acc)

/-- `String.prototype.split('\n')`. -/
def jsSplitNewline (s : String) : List String :=
  splitNewlineAux s.data []

/-! ## Data model (`src/types/config.ts`) -/

inductive Role where
  | user | assistant | system
  deriving Repr, DecidableEq

/-- `Message { role, content }`. -/
structure Message where
  role : Role
  content : String
  deriving Repr, DecidableEq

/-- `ModelSelection` is opaque to the gateway; an abstract token suffices. -/
structure ModelSelection where
  providerId : String
  apiKeyId : String
  modelId : String
  deriving Repr, DecidableEq

/-- `ComparePanel { id, selection, messages, streaming }` (the optional
`tempApi` field never influences the claims' operations on the store). -/
structure ComparePanel where
  id : String
  selection : Option ModelSelection
  messages : List Message
  streaming : Bool
  deriving Repr, DecidableEq

/-! ## Chat store (`src/stores/chat.ts`)

The store state is the `comparePanels` array.  All operations locate their
panel with `Array.prototype.find` / `findIndex`, i.e. the **first** panel
whose id matches, and mutate only that panel. -/

abbrev ChatStore := List ComparePanel

/-- Initial store: one default panel. -/
def initialStore : ChatStore :=
  [{ id := "1", selection := none, messages := [], streaming := false }]

/-- `findIndex` + `splice(index, 1)`: drop the first panel with the given
id, keep everything else (unchanged when no panel matches). -/
def removeFirstPanel : ChatStore → String → ChatStore
  | [], _ => []
  | p :: rest, id => if p.id = id then rest else p :: removeFirstPanel rest id

/-- `find(p => p.id === panelId)` + in-place mutation: rewrite the first
panel with the given id through `f`, leave every other panel untouched. -/
def updateFirstPanel : ChatStore → String → (ComparePanel → ComparePanel) → ChatStore
  | [], _, _ => []
  | p :: rest, id, f =>
      if p.id = id then f p :: rest else p :: updateFirstPanel rest id f

/-- `addComparePanel` (the fresh id `String(Date.now())` is supplied by the
environment). -/
def addComparePanel (ps : ChatStore) (newId : String) : ChatStore :=
  ps ++ [{ id := newId, selection := none, messages := [], streaming := false }]

/-- `removeComparePanel`: refuses to drop the last remaining panel. -/
def removeComparePanel (ps : ChatStore) (id : String) : ChatStore :=
  if ps.length ≤ 1 then ps else removeFirstPanel ps id

/-- `setComparePanelSelection`. -/
def setComparePanelSelection (ps : ChatStore) (panelId : String)
    (sel : ModelSelection) : ChatStore :=
  updateFirstPanel ps panelId (fun p => { p with selection := some sel })

/-- `addComparePanelMessage`. -/
def addComparePanelMessage (ps : ChatStore) (panelId : String)
    (msg : Message) : ChatStore :=
  updateFirstPanel ps panelId (fun p => { p with messages := p.messages ++ [msg] })

/-- The body of `updateComparePanelLastMessage` once the panel is in hand:
replace the last message's content when a last message exists and its role
is `assistant`; otherwise leave the list alone. -/
def replaceLastAssistantContent (msgs : List Message) (content : String) :
    List Message :=
  match msgs.getLast? with
  | none => msgs
  | some lastMsg =>
      if lastMsg.role = Role.assistant then
        msgs.dropLast ++ [{ lastMsg with content := content }]
      else msgs

/-- `updateComparePanelLastMessage`. -/
def updateComparePanelLastMessage (ps : ChatStore) (panelId : String)
    (content : String) : ChatStore :=
  updateFirstPanel ps panelId
    (fun p => { p with messages := replaceLastAssistantContent p.messages content })

/-- `setComparePanelStreaming`. -/
def setComparePanelStreaming (ps : ChatStore) (panelId : String)
    (streaming : Bool) : ChatStore :=
  updateFirstPanel ps panelId (fun p => { p with streaming := streaming })

/-- `clearComparePanel`. -/
def clearComparePanel (ps : ChatStore) (panelId : String) : ChatStore :=
  updateFirstPanel ps panelId (fun p => { p with messages := [] })

/-- `clearAllComparePanels`. -/
def clearAllComparePanels (ps : ChatStore) : ChatStore :=
  ps.map (fun p => { p with messages := [] })

/-- One invocation of a store operation (the arguments a caller can pass). -/
inductive ChatOp where
  | add (newId : String)
  | remove (id : String)
  | setSelection (panelId : String) (sel : ModelSelection)
  | addMessage (panelId : String) (msg : Message)
  | updateLast (panelId : String) (content : String)
  | setStreaming (panelId : String) (streaming : Bool)
  | clearPanel (panelId : String)
  | clearAll

/-- Interpreter for store operations. -/
def applyChatOp (ps : ChatStore) : ChatOp → ChatStore
  | .add newId => addComparePanel ps newId
  | .remove id => removeComparePanel ps id
  | .setSelection panelId sel => setComparePanelSelection ps panelId sel
  | .addMessage panelId msg => addComparePanelMessage ps panelId msg
  | .updateLast panelId content => updateComparePanelLastMessage ps panelId content
  | .setStreaming panelId b => setComparePanelStreaming ps panelId b
  | .clearPanel panelId => clearComparePanel ps panelId
  | .clearAll => clearAllComparePanels ps

/-- Run a sequence of store operations from a given state. -/
def runChatOps (ps : ChatStore) (ops : List ChatOp) : ChatStore :=
  ops.foldl applyChatOp ps

/-! ## Streaming protocol adapters (`src/utils/api.ts`)

Each `streamXxx` function runs the same read loop: decode a byte chunk,
append it to a pending `buffer`, split on `'\n'`, keep the last (possibly
incomplete) fragment as the new buffer, and feed every complete line to a
protocol-specific filter that either emits one `onChunk` string or drops
the line.  The HTTP side (`fetch`, the body reader) is the environment; a
response body is modelled as the list of decoded string chunks the reader
yields, followed by how the read loop ends. -/

/-- `data.choices?.[0]?.delta?.content` (raw optionally-chained access). -/
def extractDeltaOpenAI (j : Json) : Option Json :=
  ((j.getField "choices").bind (Json.getIndex · 0)).bind
    (fun choice => (choice.getField "delta").bind (Json.getField · "content"))

/-- `json.candidates?.[0]?.content?.parts?.[0]?.text`. -/
def extractDeltaGemini (j : Json) : Option Json :=
  ((((j.getField "candidates").bind (Json.getIndex · 0)).bind
      (Json.getField · "content")).bind
    (fun c => (c.getField "parts").bind (Json.getIndex · 0))).bind
    (Json.getField · "text")

/-- One line of the `streamOpenAI` loop body: trim; drop empty lines and the
`data: [DONE]` sentinel; require the `data: ` prefix; strip the
6-character prefix; `JSON.parse` inside a `try` (a parse failure drops the
line); emit `choices[0].delta.content` only when truthy. -/
def processLineOpenAI (parse : JsonParse) (line : String) : Option String :=
  let trimmed := jsTrim line
  if trimmed = "" then none
  else if trimmed = "data: [DONE]" then none
  else if ¬ jsStartsWith trimmed "data: " then none
  else
    match parse (jsSlice trimmed 6) with
    | none => none
    | some json =>
        match extractDeltaOpenAI json with
        | none => none
        | some content =>
            if jsTruthy content then some (jsToString content) else none

/-- One line of the `streamAnthropic` loop body (no `[DONE]` sentinel;
emits `json.delta.text` when `json.type === 'content_block_delta'` and the
text is truthy). -/
def processLineAnthropic (parse : JsonParse) (line : String) : Option String :=
  let trimmed := jsTrim line
  if trimmed = "" then none
  else if ¬ jsStartsWith trimmed "data: " then none
  else
    match parse (jsSlice trimmed 6) with
    | none => none
    | some json =>
        match json.getField "type", (json.getField "delta").bind (Json.getField · "text") with
        | some (Json.str ty), some text =>
            if ty = "content_block_delta" ∧ jsTruthy text then
              some (jsToString text)
            else none
        | _, _ => none

/-- One line of the `streamGemini` loop body. -/
def processLineGemini (parse : JsonParse) (line : String) : Option String :=
  let trimmed := jsTrim line
  if trimmed = "" then none
  else if ¬ jsStartsWith trimmed "data: " then none
  else
    match parse (jsSlice trimmed 6) with
    | none => none
    | some json =>
        match extractDeltaGemini json with
        | none => none
        | some text =>
            if jsTruthy text then some (jsToString text) else none

/-- The buffered read loop shared by the three `streamXxx` functions,
specialized by the per-line filter: returns the `onChunk` arguments in
emission order.  The trailing fragment left in `buffer` when the reader
reports `done` is never processed (matching the source, which only splits
inside the loop). -/
def runStreamLoop (emitLine : String → Option String) :
    List String → String → List String
  | [], _ => []
  | chunk :: rest, buffer =>
      let parts := jsSplitNewline (buffer ++ chunk)
      parts.dropLast.filterMap emitLine ++
        runStreamLoop emitLine rest (parts.getLastD "")

/-- The complete lines the buffered loop feeds to the per-line filter, in
order (same recursion as `runStreamLoop`, without the filter). -/
def bufferedLines : List String → String → List String
  | [], _ => []
  | chunk :: rest, buffer =>
      let parts := jsSplitNewline (buffer ++ chunk)
      parts.dropLast ++ bufferedLines rest (parts.getLastD "")

/-- A thrown JS `Error` (only `name` and `message` are consulted). -/
structure JsError where
  name : String
  message : String
  deriving Repr, DecidableEq

/-- How the incremental reads of a response body end. -/
inductive ReadEnd where
  /-- `reader.read()` returned `done: true`. -/
  | eof
  /-- a read rejected (user abort surfaces as a `DOMException` named
  `AbortError`; network failures as other errors). -/
  | failed (e : JsError)
  deriving Repr, DecidableEq

/-- Environment of one `streamXxx` call: what `fetch` did. -/
inductive FetchOutcome where
  /-- `fetch` itself rejected (network error, or abort before headers). -/
  | reject (e : JsError)
  /-- `fetch` resolved.  `body = none` models a missing `response.body`
  (`getReader` unavailable); otherwise the decoded chunks the reader
  yields, then how reading ends. -/
  | response (ok : Bool) (status : Nat) (errorText : String)
      (body : Option (List String × ReadEnd))

/-- Result of running one `streamXxx` function: the `onChunk` arguments it
emitted, and the error it threw, if any. -/
def runStreamProtocol (emitLine : String → Option String) :
    FetchOutcome → List String × Option JsError
  | .reject e => ([], some e)
  | .response ok status errorText body =>
      if ¬ ok then
        ([], some ⟨"Error", s!"API Error {status}: {errorText}"⟩)
      else
        match body with
        | none => ([], some ⟨"Error", "No response body"⟩)
        | some (chunks, re) =>
            (runStreamLoop emitLine chunks "",
              match re with
              | .eof => none
              | .failed e => some e)

/-- One observable callback invocation. -/
inductive Event where
  | chunk (text : String)
  | done
  | errorEv (message : String)
  deriving Repr, DecidableEq

/-- The per-line filter `streamChat` dispatches to for a protocol
(`openai` is also the `default` branch of the `switch`). -/
def protocolEmitLine (parse : JsonParse) : String → String → Option String
  | "anthropic" => processLineAnthropic parse
  | "gemini" => processLineGemini parse
  | _ => processLineOpenAI parse

/-- `streamChat`: run the protocol function, then `onDone()`; a thrown
error named `AbortError` also lands in `onDone()`, anything else in
`onError(error)`.  The value is the exact sequence of callback
invocations. -/
def streamChatEvents (protocol : String) (parse : JsonParse)
    (fetch : FetchOutcome) : List Event :=
  let (chunks, err) := runStreamProtocol (protocolEmitLine parse protocol) fetch
  chunks.map Event.chunk ++
    match err with
    | none => [Event.done]
    | some e => if e.name = "AbortError" then [Event.done] else [Event.errorEv e.message]

/-! ## Search providers (`src/utils/search.ts`)

Each provider issues one HTTP request and maps the parsed JSON body to the
uniform `SearchResult` shape.  The request side is environment; a call's
environment is the triple (ok, status, parsed body), with `body = none`
standing for a `response.json()` rejection.  Field values are stored raw
(`Option Json`, `none` = `undefined`); TS declares them `string` but the
runtime copies whatever the body held. -/

/-- `SearchResult { title, url, content, score? }` (raw runtime values). -/
structure SearchResult where
  title : Option Json
  url : Option Json
  content : Option Json
  score : Option Json

/-- `SearchResponse { results, query }`. -/
structure SearchResponse where
  query : String
  results : List SearchResult

/-- `options?.maxResults || 5` (note `0` is falsy in JS). -/
def maxResultsOrDefault : Option Nat → Nat
  | some 0 => 5
  | some n => n
  | none => 5

/-- `x || y` for a possibly-missing value: keep it when truthy, else the
default. -/
def jsOrElse (o : Option Json) (d : Json) : Json :=
  match o with
  | some j => if jsTruthy j then j else d
  | none => d

/-- `r.position ? 1 / r.position : undefined`.  The division is idealized
over rationals (JS would give `Infinity`/`NaN` on a zero or non-numeric
position; no claim observes score values). -/
def serpScore (position : Option Json) : Option Json :=
  match position with
  | some p =>
      if jsTruthy p then
        some (match p with
              | .num q => .num (1 / q)
              | _ => .num 0)
      else none
  | none => none

/-- `tavilySearch`: non-2xx throws; `data.results?.map(...) || []` maps
**every** element of the `results` array (no client-side truncation — the
`maxResults` option only shapes the outbound request's `max_results`
field, which lives in the environment here), a missing/`null` field yields
`[]`, and a truthy non-array field makes the `.map` call throw. -/
def tavilySearch (query : String) (maxResults : Option Nat) (ok : Bool)
    (status : Nat) (body : Option Json) : Except String SearchResponse :=
  if ¬ ok then .error s!"Tavily search failed: {status}"
  else
    match body with
    | none => .error "response.json() rejected"
    | some data =>
        match data.getField "results" with
        | none => .ok ⟨query, []⟩
        | some .null => .ok ⟨query, []⟩
        | some (.arr elems) =>
            .ok ⟨query, elems.map (fun r =>
              { title := r.getField "title", url := r.getField "url",
                content := r.getField "content", score := r.getField "score" })⟩
        | some _ => .error "TypeError: map is not a function"

/-- `serpApiSearch`: non-2xx throws;
`data.organic_results?.slice(0, max).map(...) || []` truncates to the
limit before mapping. -/
def serpApiSearch (query : String) (maxResults : Option Nat) (ok : Bool)
    (status : Nat) (body : Option Json) : Except String SearchResponse :=
  if ¬ ok then .error s!"SerpAPI search failed: {status}"
  else
    match body with
    | none => .error "response.json() rejected"
    | some data =>
        match data.getField "organic_results" with
        | none => .ok ⟨query, []⟩
        | some .null => .ok ⟨query, []⟩
        | some (.arr elems) =>
            .ok ⟨query, (elems.take (maxResultsOrDefault maxResults)).map (fun r =>
              { title := r.getField "title", url := r.getField "link",
                content := some (jsOrElse (r.getField "snippet") (.str "")),
                score := serpScore (r.getField "position") })⟩
        | some _ => .error "TypeError: map is not a function"

/-- `searxngSearch` body mapping: non-2xx throws;
`(data.results || []).slice(0, max).map(...)` truncates to the limit, a
falsy `results` field yields `[]`, a truthy non-array throws.  (The URL
addressing modes and Basic-auth header shape only the request and are
absorbed by the response environment.) -/
def searxngSearch (query : String) (maxResults : Option Nat) (ok : Bool)
    (status : Nat) (body : Option Json) : Except String SearchResponse :=
  if ¬ ok then .error s!"SearXNG search failed: {status}"
  else
    match body with
    | none => .error "response.json() rejected"
    | some data =>
        match jsOrElse (data.getField "results") (.arr []) with
        | .arr elems =>
            .ok ⟨query, (elems.take (maxResultsOrDefault maxResults)).map (fun r =>
              { title := some (jsOrElse (r.getField "title") (.str "")),
                url := some (jsOrElse (r.getField "url") (.str "")),
                content := some (jsOrElse (r.getField "content")
                  (jsOrElse (r.getField "snippet") (.str ""))),
                score := r.getField "score" })⟩
        | _ => .error "TypeError: map is not a function"

/-- `formatSearchResultsForLLM`. -/
def formatSearchResultsForLLM (results : List SearchResult) : String :=
  if results.length = 0 then "未找到相关搜索结果。"
  else
    String.intercalate "\n\n"
      ((List.range results.length).zip results |>.map (fun (i, r) =>
        let n := i + 1
        let title := jsOptToString r.title
        let url := jsOptToString r.url
        let content := jsOptToString r.content
        s!"[{n}] {title}\n来源: {url}\n{content}"))

/-! ## `ChatView.vue`: `performSearch`, panel lifecycle, `sendToPanel`

The view owns, next to the chat store, a `Map` of `AbortController`s
(modelled as an association list `panelId → aborted?`, plus a log of the
`abort()` calls so that a cancellation that later deletes its map entry
stays observable). -/

/-- `SearchService` as consulted by `performSearch`.  The `type` is kept as
a raw string: the TS union is erased at runtime and the dispatch is a
string comparison with a final `else` branch. -/
structure SearchService where
  id : String
  name : String
  type : String
  apiKey : String
  baseUrl : Option String
  proxyUrl : Option String
  username : Option String
  enabled : Bool
  deriving Repr, DecidableEq

/-- Behaviour of the three provider calls as `performSearch` sees them,
indexed by the query string (the HTTP environment of
`tavilySearch`/`serpApiSearch`/`searxngSearch` folded in). -/
structure ProviderEnv where
  tav : String → Except String SearchResponse
  serp : String → Except String SearchResponse
  sx : String → Except String SearchResponse

/-- `performSearch`: no configured service yields `[]`; an unrecognized
service type yields `[]`; the matching provider call is wrapped in
`try`/`catch` and a throw yields `[]`; otherwise the response's results
are returned. -/
def performSearch (svc : Option SearchService) (env : ProviderEnv)
    (query : String) : List SearchResult :=
  match svc with
  | none => []
  | some s =>
      if s.type = "tavily" then
        match env.tav query with
        | .ok r => r.results
        | .error _ => []
      else if s.type = "serpapi" then
        match env.serp query with
        | .ok r => r.results
        | .error _ => []
      else if s.type = "searxng" then
        match env.sx query with
        | .ok r => r.results
        | .error _ => []
      else []

/-- View-level state: the chat store plus the `abortControllers` map.
`controllers` maps a panel id to its controller's `aborted` flag;
`abortLog` records every `.abort()` invocation in order. -/
structure ViewState where
  panels : ChatStore
  controllers : List (String × Bool)
  abortLog : List String
  deriving Repr, DecidableEq

/-- `Map.prototype.get` (first binding; keys are unique by construction). -/
def mapGet (m : List (String × Bool)) (k : String) : Option Bool :=
  (m.find? (fun e => e.1 = k)).map (·.2)

/-- `Map.prototype.set`: overwrite in place, or append a new binding. -/
def mapSet : List (String × Bool) → String → Bool → List (String × Bool)
  | [], k, v => [(k, v)]
  | e :: rest, k, v => if e.1 = k then (k, v) :: rest else e :: mapSet rest k v

/-- `Map.prototype.delete`. -/
def mapDelete : List (String × Bool) → String → List (String × Bool)
  | [], _ => []
  | e :: rest, k => if e.1 = k then rest else e :: mapDelete rest k

/-- `abortControllers.value.get(id)?.abort()`: flip the controller's
`aborted` flag (and log the call) when a controller is registered for the
id; do nothing otherwise. -/
def abortIfPresent (vs : ViewState) (id : String) : ViewState :=
  match mapGet vs.controllers id with
  | some _ =>
      { vs with controllers := mapSet vs.controllers id true,
                abortLog := vs.abortLog ++ [id] }
  | none => vs

/-- `removePanel` (`ChatView.vue`): refuse when a single panel remains;
otherwise abort the panel's controller, drop it from the map, and remove
the panel from the store. -/
def removePanelView (vs : ViewState) (id : String) : ViewState :=
  if vs.panels.length ≤ 1 then vs
  else
    let vs' := abortIfPresent vs id
    { vs' with controllers := mapDelete vs'.controllers id,
               panels := removeComparePanel vs'.panels id }

/-- `clearPanel` (`ChatView.vue`): forwards to the store's
`clearComparePanel`; the controller map is untouched. -/
def clearPanelView (vs : ViewState) (id : String) : ViewState :=
  { vs with panels := clearComparePanel vs.panels id }

/-! ## `sendToPanel`

One user turn for one panel.  The negotiation call (`chatWithTools`), the
search providers and the streaming fetch are environment parameters; the
model returns the final view state, the list of `performSearch` queries in
call order, the message list handed to `streamChat`, and the callback
trace. -/

/-- A `ToolCall` as returned by `chatWithTools` (`function.name` and
`function.arguments` flattened; `type` is always `'function'`). -/
structure ToolCall where
  id : String
  name : String
  arguments : String

/-- Result of the non-streaming `chatWithTools` negotiation call. -/
structure ToolResult where
  content : Option Json
  toolCalls : Option (List ToolCall)

/-- `panels.find(p => p.id === id)` over the store. -/
def firstPanel? (ps : ChatStore) (id : String) : Option ComparePanel :=
  ps.find? (fun p => p.id = id)

/-- The `for (const toolCall of toolResult.toolCalls)` loop: skip
invocations not named `web_search`; otherwise `JSON.parse` the arguments
(a parse failure throws out of the loop into the fallback `catch`, with
the context and query log accumulated so far), run `performSearch` with
the `query` field (string-coerced, as the URL building would), and
overwrite `searchContext` with the formatted results when non-empty.
Returns `.error` for the thrown case, `.ok` when the loop finishes; both
carry (searchContext, performed queries). -/
def runToolCallLoop (parse : JsonParse) (doSearch : String → List SearchResult) :
    List ToolCall → String → List String →
      Except (String × List String) (String × List String)
  | [], ctx, qs => .ok (ctx, qs)
  | tc :: rest, ctx, qs =>
      if tc.name = "web_search" then
        match parse tc.arguments with
        | none => .error (ctx, qs)
        | some args =>
            let searchQuery := jsOptToString (args.getField "query")
            let results := doSearch searchQuery
            let ctx' := if results.length > 0 then formatSearchResultsForLLM results
                        else ctx
            runToolCallLoop parse doSearch rest ctx' (qs ++ [searchQuery])
      else runToolCallLoop parse doSearch rest ctx qs

/-- The fallback branch of the `catch`: one `performSearch` with the raw
user text; the formatted results overwrite the context only when
non-empty (otherwise whatever the `try` block had assigned survives). -/
def fallbackSearch (doSearch : String → List SearchResult) (text ctx : String)
    (qs : List String) : String × List String :=
  let results := doSearch text
  ((if results.length > 0 then formatSearchResultsForLLM results else ctx),
    qs ++ [text])

/-- The search-augmentation phase of `sendToPanel`: produces the
`searchContext` string and the ordered list of `performSearch` queries.
Only runs when the search toggle is on and a search service exists; for
`openai`/`anthropic` it negotiates (falling back on a throw), any other
protocol searches the raw text directly. -/
def searchPhase (searchEnabled : Bool) (searchServices : List SearchService)
    (negotiation : Except JsError ToolResult) (parse : JsonParse)
    (doSearch : String → List SearchResult) (protocol text : String) :
    String × List String :=
  if searchEnabled ∧ ¬ searchServices.isEmpty then
    if protocol = "openai" ∨ protocol = "anthropic" then
      match negotiation with
      | .error _ => fallbackSearch doSearch text "" []
      | .ok toolResult =>
          match toolResult.toolCalls with
          | some toolCalls =>
              if toolCalls.length > 0 then
                match runToolCallLoop parse doSearch toolCalls "" [] with
                | .ok (ctx, qs) => (ctx, qs)
                | .error (ctx, qs) => fallbackSearch doSearch text ctx qs
              else ("", [])
          | none => ("", [])
    else
      let results := doSearch text
      ((if results.length > 0 then formatSearchResultsForLLM results else ""),
        [text])
  else ("", [])

/-- The system message injected ahead of the outgoing history when the
search context is non-empty. -/
def searchSystemMessage (searchContext : String) : Message :=
  { role := .system,
    content := "以下是与用户问题相关的搜索结果，请参考这些信息来回答问题：\n\n"
      ++ searchContext
      ++ "\n\n请基于以上搜索结果和你的知识来回答用户的问题。如果搜索结果与问题相关，请引用相关信息。" }

/-- One callback invocation applied to the view state, as wired up in
`sendToPanel`: `onChunk` re-reads the panel's current last message and
replaces its content with `lastMsg.content + chunk`; `onDone` clears the
streaming flag and drops the controller; `onError` writes the error text
into the last message, clears the flag and drops the controller. -/
def applyEvent (panelId : String) (vs : ViewState) : Event → ViewState
  | .chunk text =>
      match (firstPanel? vs.panels panelId).bind (fun p => p.messages.getLast?) with
      | none => vs
      | some lastMsg =>
          { vs with panels :=
              updateComparePanelLastMessage vs.panels panelId (lastMsg.content ++ text) }
  | .done =>
      { vs with panels := setComparePanelStreaming vs.panels panelId false,
                controllers := mapDelete vs.controllers panelId }
  | .errorEv message =>
      let withError := updateComparePanelLastMessage vs.panels panelId ("错误: " ++ message)
      { vs with panels := setComparePanelStreaming withError panelId false,
                controllers := mapDelete vs.controllers panelId }

/-- Fold a callback trace over the view state. -/
def applyEvents (panelId : String) (vs : ViewState) (events : List Event) :
    ViewState :=
  events.foldl (applyEvent panelId) vs

/-- Environment of one `sendToPanel` turn. -/
structure SendEnv where
  searchEnabled : Bool
  searchServices : List SearchService
  currentService : Option SearchService
  providers : ProviderEnv
  negotiation : Except JsError ToolResult
  parse : JsonParse
  fetch : FetchOutcome

/-- Everything observable about one turn. -/
structure SendResult where
  state : ViewState
  queries : List String
  messagesSent : List Message
  trace : List Event

/-- `sendToPanel`: append the user message; run the search phase; set
`streaming`, register a fresh (non-aborted) controller, append the empty
assistant placeholder; build `messagesToSend` from the panel's live
message list minus the placeholder, prepending the search system message
when the context is non-empty; run `streamChat` and apply its callback
trace. -/
def sendToPanelModel (env : SendEnv) (protocol : String) (vs : ViewState)
    (panelId text : String) : SendResult :=
  let panels1 := addComparePanelMessage vs.panels panelId ⟨.user, text⟩
  let doSearch := performSearch env.currentService env.providers
  let (searchContext, queries) :=
    searchPhase env.searchEnabled env.searchServices env.negotiation env.parse
      doSearch protocol text
  let panels2 := setComparePanelStreaming panels1 panelId true
  let controllers1 := mapSet vs.controllers panelId false
  let panels3 := addComparePanelMessage panels2 panelId ⟨.assistant, ""⟩
  let liveMessages := ((firstPanel? panels3 panelId).map (·.messages)).getD []
  let messagesToSend :=
    if searchContext ≠ "" then
      searchSystemMessage searchContext :: liveMessages.dropLast
    else liveMessages.dropLast
  let trace := streamChatEvents protocol env.parse env.fetch
  let finalState :=
    applyEvents panelId
      { panels := panels3, controllers := controllers1, abortLog := vs.abortLog }
      trace
  ⟨finalState, queries, messagesToSend, trace⟩

/-! ## Helper lemmas -/

theorem updateFirstPanel_length (ps : ChatStore) (id : String)
    (f : ComparePanel → ComparePanel) :
    (updateFirstPanel ps id f).length = ps.length := by
  induction ps with
  | nil => rfl
  | cons p rest ih =>
      unfold updateFirstPanel
      split
      · simp
      · simpa using ih

theorem removeFirstPanel_length_ge (ps : ChatStore) (id : String) :
    ps.length - 1 ≤ (removeFirstPanel ps id).length := by
  induction ps with
  | nil => simp [removeFirstPanel]
  | cons p rest ih =>
      unfold removeFirstPanel
      split
      · simp
      · simp only [List.length_cons]
        omega

theorem updateFirstPanel_nomatch (ps : ChatStore) (id : String)
    (f : ComparePanel → ComparePanel) (h : ∀ q ∈ ps, q.id ≠ id) :
    updateFirstPanel ps id f = ps := by
  induction ps with
  | nil => rfl
  | cons p rest ih =>
      unfold updateFirstPanel
      split
      · exact absurd (by assumption) (h p (by simp))
      · rw [ih (fun q hq => h q (by simp [hq]))]

theorem updateFirstPanel_decomp (pre : ChatStore) (p : ComparePanel)
    (suf : ChatStore) (id : String) (f : ComparePanel → ComparePanel)
    (hpre : ∀ q ∈ pre, q.id ≠ id) (hp : p.id = id) :
    updateFirstPanel (pre ++ p :: suf) id f = pre ++ f p :: suf := by
  induction pre with
  | nil => simp [updateFirstPanel, hp]
  | cons q pre' ih =>
      have hq : q.id ≠ id := hpre q (by simp)
      simp only [List.cons_append, updateFirstPanel, if_neg hq]
      show q :: updateFirstPanel (pre' ++ p :: suf) id f = q :: (pre' ++ f p :: suf)
      rw [ih (fun r hr => hpre r (by simp [hr]))]

theorem firstPanel?_updateFirstPanel (ps : ChatStore) (id : String)
    (f : ComparePanel → ComparePanel) (hf : ∀ p, (f p).id = p.id) :
    firstPanel? (updateFirstPanel ps id f) id = (firstPanel? ps id).map f := by
  induction ps with
  | nil => rfl
  | cons p rest ih =>
      simp only [firstPanel?] at ih
      by_cases hp : p.id = id
      · simp [updateFirstPanel, firstPanel?, hp, hf p]
      · simp [updateFirstPanel, firstPanel?, List.find?_cons, hp, ih]

/-- The acceptance stage of the `streamOpenAI` line filter: the payload
(after stripping the 6-character `data: ` prefix) of a line that survives
trimming, the emptiness check, the `data: [DONE]` sentinel check and the
prefix check. -/
def acceptedPayloadOpenAI (line : String) : Option String :=
  let trimmed := jsTrim line
  if trimmed = "" then none
  else if trimmed = "data: [DONE]" then none
  else if ¬ jsStartsWith trimmed "data: " then none
  else some (jsSlice trimmed 6)

theorem processLineOpenAI_eq_bind (parse : JsonParse) (line : String) :
    processLineOpenAI parse line =
      (acceptedPayloadOpenAI line).bind (fun payload =>
        (parse payload).bind (fun json =>
          (extractDeltaOpenAI json).bind (fun content =>
            if jsTruthy content then some (jsToString content) else none))) := by
  simp only [processLineOpenAI, acceptedPayloadOpenAI]
  split_ifs <;> try rfl
  cases hp : parse (jsSlice (jsTrim line) 6) with
  | none => simp [hp]
  | some json => cases he : extractDeltaOpenAI json <;> simp [hp, he]

theorem firstPanel?_addMessage (ps : ChatStore) (panelId : String)
    (msg : Message) :
    firstPanel? (addComparePanelMessage ps panelId msg) panelId =
      (firstPanel? ps panelId).map
        (fun p => { p with messages := p.messages ++ [msg] }) :=
  firstPanel?_updateFirstPanel ps panelId _ (fun p => rfl)

theorem firstPanel?_setStreaming (ps : ChatStore) (panelId : String)
    (b : Bool) :
    firstPanel? (setComparePanelStreaming ps panelId b) panelId =
      (firstPanel? ps panelId).map (fun p => { p with streaming := b }) :=
  firstPanel?_updateFirstPanel ps panelId _ (fun p => rfl)

theorem runStreamLoop_eq_filterMap (emitLine : String → Option String)
    (chunks : List String) (buffer : String) :
    runStreamLoop emitLine chunks buffer =
      (bufferedLines chunks buffer).filterMap emitLine := by
  induction chunks generalizing buffer with
  | nil => rfl
  | cons chunk rest ih =>
      simp [runStreamLoop, bufferedLines, List.filterMap_append, ih]

/-! ## Claims -/

/-- C8: starting from the initial one-panel store, every sequence of
chat-store operations leaves at least one panel; and `removeComparePanel`
is a no-op on a store holding a single panel. -/
theorem panel_count_invariant :
    (∀ ops : List ChatOp, 1 ≤ (runChatOps initialStore ops).length) ∧
    (∀ (ps : ChatStore) (id : String), ps.length = 1 →
        removeComparePanel ps id = ps) := by
  constructor
  · have step : ∀ (ps : ChatStore) (op : ChatOp), 1 ≤ ps.length →
        1 ≤ (applyChatOp ps op).length := by
      intro ps op h
      cases op with
      | add newId => simp [applyChatOp, addComparePanel]
      | remove id =>
          simp only [applyChatOp, removeComparePanel]
          split
          · exact h
          · have := removeFirstPanel_length_ge ps id
            omega
      | setSelection panelId sel =>
          simpa [applyChatOp, setComparePanelSelection, updateFirstPanel_length] using h
      | addMessage panelId msg =>
          simpa [applyChatOp, addComparePanelMessage, updateFirstPanel_length] using h
      | updateLast panelId content =>
          simpa [applyChatOp, updateComparePanelLastMessage, updateFirstPanel_length] using h
      | setStreaming panelId b =>
          simpa [applyChatOp, setComparePanelStreaming, updateFirstPanel_length] using h
      | clearPanel panelId =>
          simpa [applyChatOp, clearComparePanel, updateFirstPanel_length] using h
      | clearAll => simpa [applyChatOp, clearAllComparePanels] using h
    have run : ∀ (ops : List ChatOp) (ps : ChatStore), 1 ≤ ps.length →
        1 ≤ (runChatOps ps ops).length := by
      intro ops
      induction ops with
      | nil => intro ps h; exact h
      | cons op rest ih =>
          intro ps h
          exact ih (applyChatOp ps op) (step ps op h)
    intro ops
    exact run ops initialStore (by simp [initialStore])
  · intro ps id h
    simp [removeComparePanel, h]

theorem panel_count_invariant_witness :
    1 ≤ (runChatOps initialStore [ChatOp.remove "1", ChatOp.clearAll]).length ∧
    removeComparePanel initialStore "1" = initialStore :=
  ⟨panel_count_invariant.1 [ChatOp.remove "1", ChatOp.clearAll],
    panel_count_invariant.2 initialStore "1" (by decide)⟩

/-- C9: `updateComparePanelLastMessage` rewrites exactly the first panel
carrying the given id (every other panel is untouched), and inside that
panel it replaces only the final message's content — and only when a final
message exists and its role is `assistant`; with no matching panel, no
message, or a non-assistant final message the store is unchanged, and the
final message's role and all earlier messages are always preserved. -/
theorem updateLastMessage_frame :
    (∀ (ps : ChatStore) (id content : String), (∀ q ∈ ps, q.id ≠ id) →
        updateComparePanelLastMessage ps id content = ps) ∧
    (∀ (pre : ChatStore) (p : ComparePanel) (suf : ChatStore) (content : String),
        (∀ q ∈ pre, q.id ≠ p.id) →
        updateComparePanelLastMessage (pre ++ p :: suf) p.id content =
          pre ++ { p with messages := replaceLastAssistantContent p.messages content } :: suf) ∧
    (∀ content : String, replaceLastAssistantContent [] content = []) ∧
    (∀ (msgs : List Message) (lastMsg : Message) (content : String),
        lastMsg.role ≠ Role.assistant →
        replaceLastAssistantContent (msgs ++ [lastMsg]) content = msgs ++ [lastMsg]) ∧
    (∀ (msgs : List Message) (lastMsg : Message) (content : String),
        lastMsg.role = Role.assistant →
        replaceLastAssistantContent (msgs ++ [lastMsg]) content =
          msgs ++ [{ lastMsg with content := content }]) := by
  refine ⟨?_, ?_, ?_, ?_, ?_⟩
  · intro ps id content h
    exact updateFirstPanel_nomatch ps id _ h
  · intro pre p suf content hpre
    exact updateFirstPanel_decomp pre p suf p.id _ hpre rfl
  · intro content
    rfl
  · intro msgs lastMsg content h
    simp [replaceLastAssistantContent, List.getLast?_concat, h]
  · intro msgs lastMsg content h
    simp [replaceLastAssistantContent, List.getLast?_concat, h,
      List.dropLast_concat]

theorem updateLastMessage_frame_witness :
    (updateComparePanelLastMessage initialStore "2" "x" = initialStore) ∧
    (updateComparePanelLastMessage
        [⟨"0", none, [], false⟩, ⟨"1", none, [⟨Role.user, "hi"⟩, ⟨Role.assistant, "a"⟩], true⟩]
        "1" "b" =
      [⟨"0", none, [], false⟩, ⟨"1", none,
        replaceLastAssistantContent [⟨Role.user, "hi"⟩, ⟨Role.assistant, "a"⟩] "b", true⟩]) ∧
    (replaceLastAssistantContent [] "x" = []) ∧
    (replaceLastAssistantContent [⟨Role.assistant, "a"⟩, ⟨Role.user, "u"⟩] "x" =
      [⟨Role.assistant, "a"⟩, ⟨Role.user, "u"⟩]) ∧
    (replaceLastAssistantContent [⟨Role.user, "u"⟩, ⟨Role.assistant, "a"⟩] "x" =
      [⟨Role.user, "u"⟩, ⟨Role.assistant, "x"⟩]) :=
  ⟨updateLastMessage_frame.1 initialStore "2" "x" (by decide),
    updateLastMessage_frame.2.1 [⟨"0", none, [], false⟩]
      ⟨"1", none, [⟨Role.user, "hi"⟩, ⟨Role.assistant, "a"⟩], true⟩ [] "b" (by decide),
    updateLastMessage_frame.2.2.1 "x",
    updateLastMessage_frame.2.2.2.1 [⟨Role.assistant, "a"⟩] ⟨Role.user, "u"⟩ "x" (by decide),
    updateLastMessage_frame.2.2.2.2 [⟨Role.user, "u"⟩] ⟨Role.assistant, "a"⟩ "x" rfl⟩

/-- A view state with two panels where panel `"1"` holds a live
(registered, not yet aborted) controller. -/
def liveHandleState : ViewState :=
  { panels := [⟨"1", none, [⟨Role.user, "hi"⟩], true⟩, ⟨"2", none, [], false⟩],
    controllers := [("1", false)],
    abortLog := [] }

/-- C6 counterexample: panel `"1"` has a live `AbortController`
(registered and not aborted), yet `clearPanel` empties its message history
without cancelling the handle — no `abort()` is logged and the
controller's `aborted` flag stays `false`. -/
theorem clearPanel_leaves_handle_uncancelled :
    mapGet liveHandleState.controllers "1" = some false ∧
    (clearPanelView liveHandleState "1").abortLog = [] ∧
    mapGet (clearPanelView liveHandleState "1").controllers "1" = some false ∧
    firstPanel? (clearPanelView liveHandleState "1").panels "1" =
      some ⟨"1", none, [], true⟩ := by
  refine ⟨rfl, rfl, rfl, ?_⟩
  decide

/-- C6 (amended): removing a panel that holds a live `CancellationHandle`
cancels that handle before the panel is removed; clearing a panel's
message history, by contrast, leaves the controller map and the abort log
completely untouched. -/
theorem remove_cancels_handle_clear_does_not :
    (∀ (vs : ViewState) (id : String), 1 < vs.panels.length →
        mapGet vs.controllers id = some false →
        (removePanelView vs id).abortLog = vs.abortLog ++ [id] ∧
        (removePanelView vs id).controllers =
          mapDelete (mapSet vs.controllers id true) id ∧
        (removePanelView vs id).panels = removeFirstPanel vs.panels id) ∧
    (∀ (vs : ViewState) (id : String),
        (clearPanelView vs id).controllers = vs.controllers ∧
        (clearPanelView vs id).abortLog = vs.abortLog ∧
        (clearPanelView vs id).panels = clearComparePanel vs.panels id) := by
  constructor
  · intro vs id hlen hlive
    have hgt : ¬ vs.panels.length ≤ 1 := by omega
    refine ⟨?_, ?_, ?_⟩ <;>
      simp [removePanelView, abortIfPresent, hlive, hgt, removeComparePanel]
  · intro vs id
    exact ⟨rfl, rfl, rfl⟩

/-- C3: in the token-delta loop a buffered line contributes to the output
only if, after trimming, it is non-empty, is not `data: [DONE]`, and
starts with `data: ` (the conjuncts in order: necessity of the acceptance
conditions; the 6-character prefix is stripped before the payload is
parsed; a parse failure or a missing `choices[0].delta.content` field
silently skips the line; and a stream containing one such malformed frame
yields exactly the output — hence the same concatenation — of the stream
with that frame removed). -/
theorem token_delta_frame_filter :
    (∀ (parse : JsonParse) (line : String),
        processLineOpenAI parse line ≠ none →
        jsTrim line ≠ "" ∧ jsTrim line ≠ "data: [DONE]" ∧
          jsStartsWith (jsTrim line) "data: " = true) ∧
    (∀ (parse : JsonParse) (line : String),
        processLineOpenAI parse line =
          (acceptedPayloadOpenAI line).bind (fun payload =>
            (parse payload).bind (fun json =>
              (extractDeltaOpenAI json).bind (fun content =>
                if jsTruthy content then some (jsToString content) else none)))) ∧
    (∀ (parse : JsonParse) (line payload : String),
        acceptedPayloadOpenAI line = some payload →
        (parse payload = none ∨
          ∃ json, parse payload = some json ∧ extractDeltaOpenAI json = none) →
        processLineOpenAI parse line = none) ∧
    (∀ (parse : JsonParse) (chunks chunks' pre post : List String)
        (mal payload : String),
        bufferedLines chunks "" = pre ++ mal :: post →
        bufferedLines chunks' "" = pre ++ post →
        acceptedPayloadOpenAI mal = some payload →
        (parse payload = none ∨
          ∃ json, parse payload = some json ∧ extractDeltaOpenAI json = none) →
        runStreamLoop (processLineOpenAI parse) chunks "" =
            runStreamLoop (processLineOpenAI parse) chunks' "" ∧
          String.join (runStreamLoop (processLineOpenAI parse) chunks "") =
            String.join (runStreamLoop (processLineOpenAI parse) chunks' "")) := by
  have hskip : ∀ (parse : JsonParse) (line payload : String),
      acceptedPayloadOpenAI line = some payload →
      (parse payload = none ∨
        ∃ json, parse payload = some json ∧ extractDeltaOpenAI json = none) →
      processLineOpenAI parse line = none := by
    intro parse line payload hacc hmal
    rw [processLineOpenAI_eq_bind, hacc]
    rcases hmal with hp | ⟨json, hp, he⟩
    · simp [hp]
    · simp [hp, he]
  refine ⟨?_, processLineOpenAI_eq_bind, hskip, ?_⟩
  · intro parse line h
    revert h
    simp only [processLineOpenAI]
    split_ifs with h1 h2 h3
    · intro h; exact absurd rfl h
    · intro h; exact absurd rfl h
    · intro _
      exact ⟨h1, h2, by simpa using h3⟩
    · intro h; exact absurd rfl h
  · intro parse chunks chunks' pre post mal payload hlines hlines' hacc hmal
    have hout : runStreamLoop (processLineOpenAI parse) chunks "" =
        runStreamLoop (processLineOpenAI parse) chunks' "" := by
      rw [runStreamLoop_eq_filterMap, runStreamLoop_eq_filterMap, hlines, hlines']
      simp [List.filterMap_append, List.filterMap_cons, hskip parse mal payload hacc hmal]
    exact ⟨hout, by rw [hout]⟩

/-- A concrete `JSON.parse` covering the payloads of the witness
fixtures. -/
def fixtureParse : JsonParse := fun s =>
  if s = "\x7b\"choices\":[\x7b\"delta\":\x7b\"content\":\"Hello\"\x7d\x7d]\x7d" then
    some (Json.obj [("choices",
      Json.arr [Json.obj [("delta", Json.obj [("content", Json.str "Hello")])]])])
  else if s = "\x7b\"choices\":[\x7b\"delta\":\x7b\"content\":\" world\"\x7d\x7d]\x7d" then
    some (Json.obj [("choices",
      Json.arr [Json.obj [("delta", Json.obj [("content", Json.str " world")])]])])
  else if s = "\x7b\"x\":1\x7d" then some (Json.obj [("x", Json.num 1)])
  else none

/-- Whether the fetch environment makes the stream loop observe a thrown
`AbortError`: either `fetch` itself rejected with one, or the response was
2xx, had a body, and a read rejected with one. -/
def isAbortOutcome : FetchOutcome → Bool
  | .reject e => e.name = "AbortError"
  | .response true _ _ (some (_, .failed e)) => e.name = "AbortError"
  | _ => false

theorem firstPanel?_isSome_applyEvent (panelId : String) (vs : ViewState)
    (e : Event) (h : (firstPanel? vs.panels panelId).isSome) :
    (firstPanel? (applyEvent panelId vs e).panels panelId).isSome := by
  cases e with
  | chunk text =>
      simp only [applyEvent]
      split
      · exact h
      · show (firstPanel?
          (updateComparePanelLastMessage vs.panels panelId _) panelId).isSome
        unfold updateComparePanelLastMessage
        rw [firstPanel?_updateFirstPanel _ _ _ ?_]
        · simpa using h
        · intro p; rfl
  | done =>
      simp only [applyEvent]
      show (firstPanel?
        (setComparePanelStreaming vs.panels panelId false) panelId).isSome
      unfold setComparePanelStreaming
      rw [firstPanel?_updateFirstPanel _ _ _ ?_]
      · simpa using h
      · intro p; rfl
  | errorEv message =>
      simp only [applyEvent]
      show (firstPanel? (setComparePanelStreaming
        (updateComparePanelLastMessage vs.panels panelId ("错误: " ++ message))
          panelId false) panelId).isSome
      unfold setComparePanelStreaming updateComparePanelLastMessage
      rw [firstPanel?_updateFirstPanel _ _ _ ?_, firstPanel?_updateFirstPanel _ _ _ ?_]
      · simpa using h
      · intro p; rfl
      · intro p; rfl

theorem firstPanel?_isSome_applyEvents (panelId : String) (events : List Event)
    (vs : ViewState) (h : (firstPanel? vs.panels panelId).isSome) :
    (firstPanel? (applyEvents panelId vs events).panels panelId).isSome := by
  induction events generalizing vs with
  | nil => exact h
  | cons e rest ih =>
      exact ih (applyEvent panelId vs e) (firstPanel?_isSome_applyEvent panelId vs e h)

theorem streaming_false_after_terminal (panelId : String) (vs : ViewState)
    (t : Event) (ht : t = Event.done ∨ ∃ m, t = Event.errorEv m)
    (h : (firstPanel? vs.panels panelId).isSome) :
    ∃ p', firstPanel? (applyEvent panelId vs t).panels panelId = some p' ∧
      p'.streaming = false := by
  obtain ⟨p, hp⟩ := Option.isSome_iff_exists.mp h
  rcases ht with ht | ⟨m, ht⟩ <;> subst ht
  · refine ⟨{ p with streaming := false }, ?_, rfl⟩
    show firstPanel?
      (setComparePanelStreaming vs.panels panelId false) panelId = _
    unfold setComparePanelStreaming
    rw [firstPanel?_updateFirstPanel _ _ _ ?_, hp]
    · rfl
    · intro q; rfl
  · refine ⟨{ p with
        messages := replaceLastAssistantContent p.messages ("错误: " ++ m),
        streaming := false }, ?_, rfl⟩
    simp only [applyEvent]
    show firstPanel? (setComparePanelStreaming
      (updateComparePanelLastMessage vs.panels panelId ("错误: " ++ m))
        panelId false) panelId = _
    unfold setComparePanelStreaming updateComparePanelLastMessage
    rw [firstPanel?_updateFirstPanel _ _ _ ?_, firstPanel?_updateFirstPanel _ _ _ ?_, hp]
    · rfl
    · intro q; rfl
    · intro q; rfl

/-- Concatenation of a list of strings in order. -/
def joinAll : List String → String
  | [] => ""
  | s :: rest => s ++ joinAll rest

/-- The raw `choices[0].delta.content` field (string-coerced) carried by a
token-delta line that passes the acceptance filter, parses, and has the
field — independent of the truthiness check the loop applies before
emitting. -/
def deltaOfLine (parse : JsonParse) (line : String) : Option String :=
  (((acceptedPayloadOpenAI line).bind parse).bind extractDeltaOpenAI).map jsToString

theorem joinAll_emitted_eq_deltas (parse : JsonParse) (lines : List String)
    (hwf : ∀ line ∈ lines, ∀ payload,
      acceptedPayloadOpenAI line = some payload →
      ∃ s, (parse payload).bind extractDeltaOpenAI = some (Json.str s)) :
    joinAll (lines.filterMap (processLineOpenAI parse)) =
      joinAll (lines.filterMap (deltaOfLine parse)) := by
  induction lines with
  | nil => rfl
  | cons line rest ih =>
      have hrest := ih (fun l hl => hwf l (List.mem_cons_of_mem _ hl))
      rw [List.filterMap_cons, List.filterMap_cons]
      cases hacc : acceptedPayloadOpenAI line with
      | none =>
          have h1 : processLineOpenAI parse line = none := by
            rw [processLineOpenAI_eq_bind, hacc]; rfl
          have h2 : deltaOfLine parse line = none := by
            unfold deltaOfLine; rw [hacc]; rfl
          simp [h1, h2, hrest]
      | some payload =>
          obtain ⟨s, hs⟩ := hwf line (by simp) payload hacc
          have h1 : processLineOpenAI parse line =
              if s = "" then none else some s := by
            rw [processLineOpenAI_eq_bind, hacc, Option.some_bind,
              ← Option.bind_assoc, hs, Option.some_bind]
            by_cases hse : s = "" <;> simp [jsTruthy, jsToString, hse]
          have h2 : deltaOfLine parse line = some s := by
            unfold deltaOfLine
            rw [hacc, Option.some_bind, hs]
            rfl
          by_cases hse : s = ""
          · rw [h1, h2]
            simp [hse, joinAll, String.empty_append, hrest]
          · rw [h1, h2]
            simp [hse, joinAll, hrest]

theorem applyEvents_chunks_accum (panelId : String) (cs : List String) :
    ∀ (vs : ViewState) (p : ComparePanel) (pre : List Message) (acc : String),
      firstPanel? vs.panels panelId = some p →
      p.messages = pre ++ [⟨Role.assistant, acc⟩] →
      ∃ p', firstPanel? (applyEvents panelId vs
          (cs.map Event.chunk)).panels panelId = some p' ∧
        p'.messages = pre ++ [⟨Role.assistant, acc ++ joinAll cs⟩] ∧
        p'.streaming = p.streaming := by
  induction cs with
  | nil =>
      intro vs p pre acc hp hmsgs
      exact ⟨p, hp, by simp [joinAll, String.append_empty, hmsgs], rfl⟩
  | cons c rest ih =>
      intro vs p pre acc hp hmsgs
      have hlast : p.messages.getLast? = some ⟨Role.assistant, acc⟩ := by
        rw [hmsgs]; exact List.getLast?_concat _
      have happly : applyEvent panelId vs (Event.chunk c) =
          { vs with panels :=
              updateComparePanelLastMessage vs.panels panelId (acc ++ c) } := by
        simp only [applyEvent, hp, Option.some_bind, hlast]
      have hnew : firstPanel?
          (updateComparePanelLastMessage vs.panels panelId (acc ++ c)) panelId =
          some { p with messages := pre ++ [⟨Role.assistant, acc ++ c⟩] } := by
        unfold updateComparePanelLastMessage
        rw [firstPanel?_updateFirstPanel _ _ _ ?_, hp]
        · have : replaceLastAssistantContent p.messages (acc ++ c) =
              pre ++ [⟨Role.assistant, acc ++ c⟩] := by
            rw [hmsgs]
            simp [replaceLastAssistantContent, List.getLast?_concat,
              List.dropLast_concat]
          simp [this]
        · intro q; rfl
      rw [List.map_cons]
      unfold applyEvents
      rw [List.foldl_cons]
      have hres := ih (applyEvent panelId vs (Event.chunk c))
        { p with messages := pre ++ [⟨Role.assistant, acc ++ c⟩] }
        pre (acc ++ c) (by rw [happly]; exact hnew) rfl
      obtain ⟨p', hp', hmsg', hstr'⟩ := hres
      refine ⟨p', ?_, ?_, ?_⟩
      · simpa [applyEvents] using hp'
      · rw [hmsg', joinAll, ← String.append_assoc]
      · exact hstr'

/-- C1: for an `openai`-protocol turn whose streaming response body is a
well-formed token-delta SSE fixture (every accepted `data:` frame parses
and carries a string `choices[0].delta.content`), the assistant message the
stream loop leaves as the panel's last message is exactly the
concatenation, in arrival order, of the `choices[0].delta.content` fields
of the accepted frames, and the panel's `streaming` flag is `false` after
completion. -/
theorem openai_stream_fills_assistant_message
    (env : SendEnv) (vs : ViewState) (panelId text : String)
    (status : Nat) (errorText : String) (chunks : List String)
    (hfetch : env.fetch =
      FetchOutcome.response true status errorText (some (chunks, ReadEnd.eof)))
    (hwf : ∀ line ∈ bufferedLines chunks "", ∀ payload,
      acceptedPayloadOpenAI line = some payload →
      ∃ s, (env.parse payload).bind extractDeltaOpenAI = some (Json.str s))
    (hpanel : (firstPanel? vs.panels panelId).isSome) :
    ∃ p', firstPanel? (sendToPanelModel env "openai" vs panelId text).state.panels
        panelId = some p' ∧
      p'.streaming = false ∧
      p'.messages.getLast? = some ⟨Role.assistant,
        joinAll ((bufferedLines chunks "").filterMap (deltaOfLine env.parse))⟩ := by
  obtain ⟨p0, hp0⟩ := Option.isSome_iff_exists.mp hpanel
  have hp1 : firstPanel?
      (addComparePanelMessage vs.panels panelId ⟨Role.user, text⟩) panelId =
      some { p0 with messages := p0.messages ++ [⟨Role.user, text⟩] } := by
    rw [firstPanel?_addMessage, hp0]
    rfl
  have hp2 : firstPanel? (setComparePanelStreaming
      (addComparePanelMessage vs.panels panelId ⟨Role.user, text⟩)
        panelId true) panelId =
      some { p0 with
        messages := p0.messages ++ [⟨Role.user, text⟩]
        streaming := true } := by
    rw [firstPanel?_setStreaming, hp1]
    rfl
  have hp3 : firstPanel? (addComparePanelMessage (setComparePanelStreaming
      (addComparePanelMessage vs.panels panelId ⟨Role.user, text⟩)
        panelId true) panelId ⟨Role.assistant, ""⟩) panelId =
      some { p0 with
        messages := (p0.messages ++ [⟨Role.user, text⟩]) ++ [⟨Role.assistant, ""⟩]
        streaming := true } := by
    rw [firstPanel?_addMessage, hp2]
    rfl
  have hevents : streamChatEvents "openai" env.parse env.fetch =
      (runStreamLoop (processLineOpenAI env.parse) chunks "").map Event.chunk ++
        [Event.done] := by
    rw [hfetch]; rfl
  have hstate : (sendToPanelModel env "openai" vs panelId text).state =
      applyEvents panelId
        { panels := addComparePanelMessage (setComparePanelStreaming
            (addComparePanelMessage vs.panels panelId ⟨Role.user, text⟩)
              panelId true) panelId ⟨Role.assistant, ""⟩,
          controllers := mapSet vs.controllers panelId false,
          abortLog := vs.abortLog }
        (streamChatEvents "openai" env.parse env.fetch) := rfl
  rw [hstate, hevents]
  unfold applyEvents
  rw [List.foldl_append]
  obtain ⟨p', hp', hmsg', hstr'⟩ :=
    applyEvents_chunks_accum panelId
      (runStreamLoop (processLineOpenAI env.parse) chunks "")
      { panels := addComparePanelMessage (setComparePanelStreaming
          (addComparePanelMessage vs.panels panelId ⟨Role.user, text⟩)
            panelId true) panelId ⟨Role.assistant, ""⟩,
        controllers := mapSet vs.controllers panelId false,
        abortLog := vs.abortLog }
      { p0 with
        messages := (p0.messages ++ [⟨Role.user, text⟩]) ++ [⟨Role.assistant, ""⟩]
        streaming := true }
      (p0.messages ++ [⟨Role.user, text⟩]) "" hp3 rfl
  have hjoin : "" ++ joinAll (runStreamLoop (processLineOpenAI env.parse) chunks "") =
      joinAll ((bufferedLines chunks "").filterMap (deltaOfLine env.parse)) := by
    rw [String.empty_append, runStreamLoop_eq_filterMap]
    exact joinAll_emitted_eq_deltas env.parse (bufferedLines chunks "") hwf
  have hp'' : firstPanel? (List.foldl (applyEvent panelId)
      ({ panels := addComparePanelMessage (setComparePanelStreaming (addComparePanelMessage vs.panels panelId ⟨Role.user, text⟩) panelId true) panelId ⟨Role.assistant, ""⟩, controllers := mapSet vs.controllers panelId false, abortLog := vs.abortLog } : ViewState)
      ((runStreamLoop (processLineOpenAI env.parse) chunks "").map
        Event.chunk)).panels panelId = some p' := hp'
  refine ⟨{ p' with streaming := false }, ?_, rfl, ?_⟩
  · simp only [List.foldl_cons, List.foldl_nil, applyEvent]
    rw [firstPanel?_setStreaming, hp'']
    rfl
  · rw [hmsg', hjoin]
    exact List.getLast?_concat _

/-- C2: every `streamChat` call produces a callback trace consisting of
zero or more `onChunk` invocations followed by exactly one terminal
callback, which is either `onDone` or `onError`; an observed `AbortError`
terminates in `onDone`; and in every case, applying the trace to a view
state whose store contains the session leaves that session's `streaming`
flag `false`. -/
theorem streamChat_callback_contract :
    ∀ (protocol : String) (parse : JsonParse) (fetch : FetchOutcome),
      (∃ (chunks : List String) (terminal : Event),
        streamChatEvents protocol parse fetch =
            chunks.map Event.chunk ++ [terminal] ∧
          (terminal = Event.done ∨ ∃ m, terminal = Event.errorEv m)) ∧
      (isAbortOutcome fetch = true →
        ∃ (chunks : List String), streamChatEvents protocol parse fetch =
          chunks.map Event.chunk ++ [Event.done]) ∧
      (∀ (vs : ViewState) (panelId : String),
        (firstPanel? vs.panels panelId).isSome →
        ∃ p', firstPanel? (applyEvents panelId vs
            (streamChatEvents protocol parse fetch)).panels panelId = some p' ∧
          p'.streaming = false) := by
  intro protocol parse fetch
  obtain ⟨chunks, err, hrun⟩ :
      ∃ cs e, runStreamProtocol (protocolEmitLine parse protocol) fetch = (cs, e) :=
    ⟨_, _, rfl⟩
  have htrace : streamChatEvents protocol parse fetch =
      chunks.map Event.chunk ++
        err.elim [Event.done] (fun e =>
          if e.name = "AbortError" then [Event.done]
          else [Event.errorEv e.message]) := by
    unfold streamChatEvents
    simp only [hrun]
    cases err <;> rfl
  have hterm : ∃ terminal,
      streamChatEvents protocol parse fetch =
          chunks.map Event.chunk ++ [terminal] ∧
        (terminal = Event.done ∨ ∃ m, terminal = Event.errorEv m) := by
    cases err with
    | none => exact ⟨Event.done, htrace, Or.inl rfl⟩
    | some e =>
        by_cases hn : e.name = "AbortError"
        · exact ⟨Event.done, by rw [htrace]; simp [hn], Or.inl rfl⟩
        · exact ⟨Event.errorEv e.message, by rw [htrace]; simp [hn],
            Or.inr ⟨e.message, rfl⟩⟩
  obtain ⟨terminal, htr, hterm2⟩ := hterm
  refine ⟨⟨chunks, terminal, htr, hterm2⟩, ?_, ?_⟩
  · intro habort
    cases fetch with
    | reject e =>
        have he : e.name = "AbortError" := by
          simpa [isAbortOutcome] using habort
        exact ⟨[], by simp [streamChatEvents, runStreamProtocol, he]⟩
    | response ok status errorText body =>
        cases ok with
        | false => simp [isAbortOutcome] at habort
        | true =>
            cases body with
            | none => simp [isAbortOutcome] at habort
            | some chre =>
                obtain ⟨chs, re⟩ := chre
                cases re with
                | eof => simp [isAbortOutcome] at habort
                | failed e =>
                    have he : e.name = "AbortError" := by
                      simpa [isAbortOutcome] using habort
                    exact ⟨runStreamLoop (protocolEmitLine parse protocol) chs "",
                      by simp [streamChatEvents, runStreamProtocol, he]⟩
  · intro vs panelId hsome
    rw [htr]
    unfold applyEvents
    rw [List.foldl_append]
    simp only [List.foldl_cons, List.foldl_nil]
    have hmid := firstPanel?_isSome_applyEvents panelId
      (chunks.map Event.chunk) vs hsome
    exact streaming_false_after_terminal panelId _ terminal hterm2
      (by simpa [applyEvents] using hmid)

/-- A two-frame token-delta SSE fixture, split across two reads, with a
blank heartbeat line and the `data: [DONE]` sentinel. -/
def fixtureChunks : List String :=
  ["data: \x7b\"choices\":[\x7b\"delta\":\x7b\"content\":\"Hello\"\x7d\x7d]\x7d\n\n",
    "data: \x7b\"choices\":[\x7b\"delta\":\x7b\"content\":\" world\"\x7d\x7d]\x7d\n\ndata: [DONE]\n"]

/-- A turn environment: search off, successful streaming fetch over
`fixtureChunks`. -/
def fixtureEnv : SendEnv :=
  { searchEnabled := false
    searchServices := []
    currentService := none
    providers := ⟨fun _ => .error "unused", fun _ => .error "unused",
      fun _ => .error "unused"⟩
    negotiation := .ok ⟨none, none⟩
    parse := fixtureParse
    fetch := .response true 200 "" (some (fixtureChunks, .eof)) }

theorem openai_stream_fills_assistant_message_witness :
    ∃ p', firstPanel? (sendToPanelModel fixtureEnv "openai" liveHandleState
        "1" "hello").state.panels "1" = some p' ∧
      p'.streaming = false ∧
      p'.messages.getLast? = some ⟨Role.assistant,
        joinAll ((bufferedLines fixtureChunks "").filterMap
          (deltaOfLine fixtureParse))⟩ := by
  refine openai_stream_fills_assistant_message fixtureEnv liveHandleState
    "1" "hello" 200 "" fixtureChunks rfl ?_ (by decide)
  intro line hline payload hacc
  have hlines : bufferedLines fixtureChunks "" =
      ["data: \x7b\"choices\":[\x7b\"delta\":\x7b\"content\":\"Hello\"\x7d\x7d]\x7d", "",
        "data: \x7b\"choices\":[\x7b\"delta\":\x7b\"content\":\" world\"\x7d\x7d]\x7d", "",
        "data: [DONE]"] := by decide
  rw [hlines] at hline
  simp only [List.mem_cons, List.not_mem_nil, or_false] at hline
  rcases hline with rfl | rfl | rfl | rfl | rfl
  · have hpl : payload = "\x7b\"choices\":[\x7b\"delta\":\x7b\"content\":\"Hello\"\x7d\x7d]\x7d" :=
      (Option.some.inj hacc).symm
    subst hpl
    exact ⟨"Hello", rfl⟩
  · exact Option.noConfusion hacc
  · have hpl : payload = "\x7b\"choices\":[\x7b\"delta\":\x7b\"content\":\" world\"\x7d\x7d]\x7d" :=
      (Option.some.inj hacc).symm
    subst hpl
    exact ⟨" world", rfl⟩
  · exact Option.noConfusion hacc
  · exact Option.noConfusion hacc

/-- A streaming fetch whose read loop is aborted mid-stream. -/
def abortFetch : FetchOutcome :=
  FetchOutcome.response true 200 ""
    (some (["data: \x7b\"choices\":[\x7b\"delta\":\x7b\"content\":\"Hello\"\x7d\x7d]\x7d\n"],
      ReadEnd.failed ⟨"AbortError", "The user aborted a request."⟩))

theorem streamChat_callback_contract_witness :
    (∃ (chunks : List String) (terminal : Event),
      streamChatEvents "openai" fixtureParse abortFetch =
          chunks.map Event.chunk ++ [terminal] ∧
        (terminal = Event.done ∨ ∃ m, terminal = Event.errorEv m)) ∧
    (∃ (chunks : List String), streamChatEvents "openai" fixtureParse abortFetch =
        chunks.map Event.chunk ++ [Event.done]) ∧
    (∃ p', firstPanel? (applyEvents "1" liveHandleState
        (streamChatEvents "openai" fixtureParse abortFetch)).panels "1" = some p' ∧
      p'.streaming = false) :=
  ⟨(streamChat_callback_contract "openai" fixtureParse abortFetch).1,
    (streamChat_callback_contract "openai" fixtureParse abortFetch).2.1 (by decide),
    (streamChat_callback_contract "openai" fixtureParse abortFetch).2.2
      liveHandleState "1" (by decide)⟩

/-- C4: with search enabled, a search service configured, and a
tool-negotiating protocol (`openai`/`anthropic`), a `chatWithTools` call
that throws triggers exactly one fallback `performSearch` whose query is
the raw, unmodified user text; and the negotiation failure is never
surfaced as an error — with a successful streaming fetch the turn's
callback trace contains no `onError` at all. -/
theorem negotiation_failure_falls_back
    (env : SendEnv) (vs : ViewState) (panelId text : String) (e : JsError)
    (protocol : String)
    (hen : env.searchEnabled = true)
    (hsv : env.searchServices ≠ [])
    (hproto : protocol = "openai" ∨ protocol = "anthropic")
    (hneg : env.negotiation = Except.error e) :
    (sendToPanelModel env protocol vs panelId text).queries = [text] ∧
    (∀ (status : Nat) (errorText : String) (chunks : List String),
      env.fetch = FetchOutcome.response true status errorText
        (some (chunks, ReadEnd.eof)) →
      ∀ m, Event.errorEv m ∉ (sendToPanelModel env protocol vs panelId text).trace) := by
  have hempty : env.searchServices.isEmpty = false := by
    cases henv : env.searchServices with
    | nil => exact absurd henv hsv
    | cons a l => rfl
  have hq : (sendToPanelModel env protocol vs panelId text).queries =
      (searchPhase env.searchEnabled env.searchServices env.negotiation env.parse
        (performSearch env.currentService env.providers) protocol text).2 := rfl
  have htrv : (sendToPanelModel env protocol vs panelId text).trace =
      streamChatEvents protocol env.parse env.fetch := rfl
  constructor
  · rw [hq]
    rcases hproto with rfl | rfl <;>
      simp [searchPhase, hen, hempty, hneg, fallbackSearch]
  · intro status errorText chunks hfetch m hmem
    rw [htrv, hfetch] at hmem
    have hev : streamChatEvents protocol env.parse
        (FetchOutcome.response true status errorText (some (chunks, ReadEnd.eof))) =
        (runStreamLoop (protocolEmitLine env.parse protocol) chunks "").map
          Event.chunk ++ [Event.done] := rfl
    rw [hev] at hmem
    simp only [List.mem_append, List.mem_map, List.mem_singleton] at hmem
    rcases hmem with ⟨c, _, hc⟩ | hc <;> exact Event.noConfusion hc

/-- A search service record used by the turn-level witnesses. -/
def tavilyService : SearchService :=
  ⟨"s1", "svc", "tavily", "k", none, none, none, true⟩

/-- A turn environment whose negotiation call throws. -/
def negFailEnv : SendEnv :=
  { searchEnabled := true
    searchServices := [tavilyService]
    currentService := some tavilyService
    providers := ⟨fun _ => Except.error "down", fun _ => Except.error "down",
      fun _ => Except.error "down"⟩
    negotiation := Except.error ⟨"TypeError", "Failed to fetch"⟩
    parse := fixtureParse
    fetch := FetchOutcome.response true 200 "" (some (fixtureChunks, ReadEnd.eof)) }

theorem negotiation_failure_falls_back_witness :
    (sendToPanelModel negFailEnv "openai" liveHandleState "1" "hi").queries = ["hi"] ∧
    Event.errorEv "boom" ∉
      (sendToPanelModel negFailEnv "openai" liveHandleState "1" "hi").trace :=
  ⟨(negotiation_failure_falls_back negFailEnv liveHandleState "1" "hi"
      ⟨"TypeError", "Failed to fetch"⟩ "openai" rfl (by decide) (Or.inl rfl) rfl).1,
    (negotiation_failure_falls_back negFailEnv liveHandleState "1" "hi"
      ⟨"TypeError", "Failed to fetch"⟩ "openai" rfl (by decide) (Or.inl rfl) rfl).2
      200 "" fixtureChunks rfl "boom"⟩

/-- The `query` strings the tool-call loop hands to `performSearch`: one
per invocation named `web_search`, in order, parsed (and string-coerced)
from that invocation's JSON arguments. -/
def webSearchQueries (parse : JsonParse) (tcs : List ToolCall) : List String :=
  tcs.filterMap (fun tc =>
    if tc.name = "web_search" then
      (parse tc.arguments).map (fun args => jsOptToString (args.getField "query"))
    else none)

/-- The context block the loop builds: each query whose search returns a
non-empty result list **overwrites** the block with its own formatted
results; queries with empty results leave it unchanged. -/
def overwriteContext (doSearch : String → List SearchResult)
    (qs : List String) (init : String) : String :=
  qs.foldl (fun ctx q =>
    if (doSearch q).length > 0 then formatSearchResultsForLLM (doSearch q)
    else ctx) init

theorem runToolCallLoop_all_parse (parse : JsonParse)
    (doSearch : String → List SearchResult) :
    ∀ (tcs : List ToolCall) (ctx : String) (qs : List String),
      (∀ tc ∈ tcs, tc.name = "web_search" → ∃ j, parse tc.arguments = some j) →
      runToolCallLoop parse doSearch tcs ctx qs =
        .ok (overwriteContext doSearch (webSearchQueries parse tcs) ctx,
          qs ++ webSearchQueries parse tcs) := by
  intro tcs
  induction tcs with
  | nil =>
      intro ctx qs h
      simp [runToolCallLoop, webSearchQueries, overwriteContext]
  | cons tc rest ih =>
      intro ctx qs h
      have hrest := fun t ht hw => h t (List.mem_cons_of_mem _ ht) hw
      by_cases hn : tc.name = "web_search"
      · obtain ⟨j, hj⟩ := h tc (by simp) hn
        rw [runToolCallLoop, if_pos hn, hj]
        simp only []
        rw [ih _ _ hrest]
        simp [webSearchQueries, List.filterMap_cons, hn, hj, overwriteContext,
          List.foldl_cons, List.append_assoc]
      · rw [runToolCallLoop, if_neg hn, ih _ _ hrest]
        simp [webSearchQueries, List.filterMap_cons, hn]

/-- C5 (amended): when the negotiation succeeds with a non-empty list of
tool invocations whose `web_search` arguments all parse, one search runs
per `web_search` invocation with its parsed `query`, in order; the
resulting context block is the formatted results of the **last**
invocation that returned a non-empty result list (each such invocation
overwrites the block — results are not concatenated across invocations);
and when that block is non-empty it is prepended to the outgoing message
list as a single leading system-role message before the streaming call. -/
theorem toolcall_searches_and_context
    (env : SendEnv) (vs : ViewState) (panelId text : String) (protocol : String)
    (c : Option Json) (tcs : List ToolCall) (p0 : ComparePanel)
    (hen : env.searchEnabled = true)
    (hsv : env.searchServices ≠ [])
    (hproto : protocol = "openai" ∨ protocol = "anthropic")
    (hneg : env.negotiation = Except.ok ⟨c, some tcs⟩)
    (htcs : tcs ≠ [])
    (hparse : ∀ tc ∈ tcs, tc.name = "web_search" →
      ∃ j, env.parse tc.arguments = some j)
    (hpanel : firstPanel? vs.panels panelId = some p0) :
    (sendToPanelModel env protocol vs panelId text).queries =
      webSearchQueries env.parse tcs ∧
    (sendToPanelModel env protocol vs panelId text).messagesSent =
      (if overwriteContext (performSearch env.currentService env.providers)
          (webSearchQueries env.parse tcs) "" = "" then []
       else [searchSystemMessage (overwriteContext
          (performSearch env.currentService env.providers)
          (webSearchQueries env.parse tcs) "")]) ++
        (p0.messages ++ [⟨Role.user, text⟩]) := by
  have hempty : env.searchServices.isEmpty = false := by
    cases henv : env.searchServices with
    | nil => exact absurd henv hsv
    | cons a l => rfl
  have hlen : tcs.length > 0 := by
    cases tcs with
    | nil => exact absurd rfl htcs
    | cons a l => simp
  have hphase : searchPhase env.searchEnabled env.searchServices env.negotiation
      env.parse (performSearch env.currentService env.providers) protocol text =
      (overwriteContext (performSearch env.currentService env.providers)
          (webSearchQueries env.parse tcs) "",
        webSearchQueries env.parse tcs) := by
    rcases hproto with rfl | rfl <;>
      simp [searchPhase, hen, hempty, hneg, hlen,
        runToolCallLoop_all_parse env.parse
          (performSearch env.currentService env.providers) tcs "" [] hparse]
  have hlive : ((firstPanel? (addComparePanelMessage (setComparePanelStreaming
      (addComparePanelMessage vs.panels panelId ⟨Role.user, text⟩)
        panelId true) panelId ⟨Role.assistant, ""⟩) panelId).map
          (fun p => p.messages)).getD [] =
      (p0.messages ++ [⟨Role.user, text⟩]) ++ [⟨Role.assistant, ""⟩] := by
    rw [firstPanel?_addMessage, firstPanel?_setStreaming, firstPanel?_addMessage,
      hpanel]
    rfl
  have hq : (sendToPanelModel env protocol vs panelId text).queries =
      (searchPhase env.searchEnabled env.searchServices env.negotiation env.parse
        (performSearch env.currentService env.providers) protocol text).2 := rfl
  have hm : (sendToPanelModel env protocol vs panelId text).messagesSent =
      (if (searchPhase env.searchEnabled env.searchServices env.negotiation
          env.parse (performSearch env.currentService env.providers)
          protocol text).1 ≠ "" then
        searchSystemMessage (searchPhase env.searchEnabled env.searchServices
          env.negotiation env.parse
          (performSearch env.currentService env.providers) protocol text).1 ::
          (((firstPanel? (addComparePanelMessage (setComparePanelStreaming
            (addComparePanelMessage vs.panels panelId ⟨Role.user, text⟩)
              panelId true) panelId ⟨Role.assistant, ""⟩) panelId).map
                (fun p => p.messages)).getD []).dropLast
      else (((firstPanel? (addComparePanelMessage (setComparePanelStreaming
            (addComparePanelMessage vs.panels panelId ⟨Role.user, text⟩)
              panelId true) panelId ⟨Role.assistant, ""⟩) panelId).map
                (fun p => p.messages)).getD []).dropLast) := rfl
  refine ⟨by rw [hq, hphase], ?_⟩
  rw [hm, hlive, hphase]
  simp only [List.dropLast_concat]
  by_cases hc : overwriteContext (performSearch env.currentService env.providers)
      (webSearchQueries env.parse tcs) "" = ""
  · simp [hc]
  · simp [hc]

/-- A named search result with distinct title. -/
def searchResultNamed (t : String) : SearchResult :=
  ⟨some (Json.str t), some (Json.str "u"), some (Json.str "c"), none⟩

/-- A concrete `JSON.parse` for the two tool-call argument payloads. -/
def argsParse : JsonParse := fun s =>
  if s = "\x7b\"query\":\"q1\"\x7d" then some (Json.obj [("query", Json.str "q1")])
  else if s = "\x7b\"query\":\"q2\"\x7d" then some (Json.obj [("query", Json.str "q2")])
  else none

/-- A turn environment whose negotiation returns two `web_search`
invocations, each finding one distinct result. -/
def twoCallEnv : SendEnv :=
  { searchEnabled := true
    searchServices := [tavilyService]
    currentService := some tavilyService
    providers := ⟨fun q =>
        if q = "q1" then Except.ok ⟨"q1", [searchResultNamed "t1"]⟩
        else if q = "q2" then Except.ok ⟨"q2", [searchResultNamed "t2"]⟩
        else Except.ok ⟨q, []⟩,
      fun _ => Except.error "x", fun _ => Except.error "x"⟩
    negotiation := Except.ok ⟨none, some [⟨"1", "web_search", "\x7b\"query\":\"q1\"\x7d"⟩,
      ⟨"2", "web_search", "\x7b\"query\":\"q2\"\x7d"⟩]⟩
    parse := argsParse
    fetch := FetchOutcome.response true 200 "" (some ([], ReadEnd.eof)) }

/-- A view state holding only the initial panel. -/
def emptyViewState : ViewState := ⟨initialStore, [], []⟩

/-- C5 counterexample: a negotiation returning **two** `web_search`
invocations runs both searches (queries `q1`, `q2` in order), yet the
system message prepended to the outgoing list carries only the formatted
results of the **second** invocation — not the concatenation of the
results of all invocations, which the claim asserts. -/
theorem toolcall_context_not_concatenated :
    (sendToPanelModel twoCallEnv "openai" emptyViewState "1" "hello").queries =
      ["q1", "q2"] ∧
    (sendToPanelModel twoCallEnv "openai" emptyViewState "1" "hello").messagesSent.head? =
      some (searchSystemMessage
        (formatSearchResultsForLLM [searchResultNamed "t2"])) ∧
    formatSearchResultsForLLM [searchResultNamed "t2"] ≠
      formatSearchResultsForLLM ([searchResultNamed "t1"] ++ [searchResultNamed "t2"]) := by
  refine ⟨by decide, by decide, by decide⟩

theorem toolcall_searches_and_context_witness :
    (sendToPanelModel twoCallEnv "openai" emptyViewState "1" "hello").queries =
      webSearchQueries argsParse [⟨"1", "web_search", "\x7b\"query\":\"q1\"\x7d"⟩,
        ⟨"2", "web_search", "\x7b\"query\":\"q2\"\x7d"⟩] ∧
    (sendToPanelModel twoCallEnv "openai" emptyViewState "1" "hello").messagesSent =
      (if overwriteContext (performSearch twoCallEnv.currentService
          twoCallEnv.providers) (webSearchQueries argsParse
            [⟨"1", "web_search", "\x7b\"query\":\"q1\"\x7d"⟩,
              ⟨"2", "web_search", "\x7b\"query\":\"q2\"\x7d"⟩]) "" = "" then []
       else [searchSystemMessage (overwriteContext
          (performSearch twoCallEnv.currentService twoCallEnv.providers)
          (webSearchQueries argsParse [⟨"1", "web_search", "\x7b\"query\":\"q1\"\x7d"⟩,
            ⟨"2", "web_search", "\x7b\"query\":\"q2\"\x7d"⟩]) "")]) ++
        (([] : List Message) ++ [⟨Role.user, "hello"⟩]) :=
  toolcall_searches_and_context twoCallEnv emptyViewState "1" "hello" "openai"
    none [⟨"1", "web_search", "\x7b\"query\":\"q1\"\x7d"⟩,
      ⟨"2", "web_search", "\x7b\"query\":\"q2\"\x7d"⟩]
    ⟨"1", none, [], false⟩ rfl (by decide) (Or.inl rfl) rfl
    (List.cons_ne_nil _ _)
    (by
      intro tc htc hn
      simp only [List.mem_cons, List.not_mem_nil, or_false] at htc
      rcases htc with rfl | rfl
      · exact ⟨Json.obj [("query", Json.str "q1")], rfl⟩
      · exact ⟨Json.obj [("query", Json.str "q2")], rfl⟩)
    rfl

/-- A well-formed Tavily result object. -/
def tavilyResultObj (t : String) : Json :=
  Json.obj [("title", Json.str t), ("url", Json.str "https://e.x"),
    ("content", Json.str "c"), ("score", Json.num 1)]

/-- A parsed Tavily response body carrying six results. -/
def tavilyBody6 : Json :=
  Json.obj [("results", Json.arr [tavilyResultObj "r1", tavilyResultObj "r2",
    tavilyResultObj "r3", tavilyResultObj "r4", tavilyResultObj "r5",
    tavilyResultObj "r6"])]

/-- Number of results a provider call returned (0 when it threw). -/
def searchResultCount : Except String SearchResponse → Nat
  | .ok resp => resp.results.length
  | .error _ => 0

/-- C7 counterexample: `tavilySearch`, asked for at most 5 results,
succeeds with **six** results when the parsed response body carries six —
the function never truncates the response array, so the "at most the
requested limit" part of the claim fails for Tavily. -/
theorem tavily_returns_more_than_limit :
    searchResultCount (tavilySearch "q" (some 5) true 200 (some tavilyBody6)) = 6 ∧
    ¬ searchResultCount (tavilySearch "q" (some 5) true 200 (some tavilyBody6)) ≤ 5 :=
  ⟨rfl, by decide⟩

/-- C7 (amended): `serpApiSearch` and `searxngSearch` cap their results at
the requested limit (default 5); `tavilySearch` returns exactly as many
results as the parsed response carries, relying on the request-side
`max_results` only; all three return an empty list successfully when the
response carries zero results; and a non-2xx HTTP status makes each of the
three raise. -/
theorem search_provider_contract :
    (∀ (query : String) (maxResults : Option Nat) (status : Nat)
        (data : Json) (elems : List Json),
        data.getField "results" = some (Json.arr elems) →
        ∃ resp, tavilySearch query maxResults true status (some data) = .ok resp ∧
          resp.results.length = elems.length) ∧
    (∀ (query : String) (maxResults : Option Nat) (ok : Bool) (status : Nat)
        (body : Option Json) (resp : SearchResponse),
        serpApiSearch query maxResults ok status body = .ok resp →
        resp.results.length ≤ maxResultsOrDefault maxResults) ∧
    (∀ (query : String) (maxResults : Option Nat) (ok : Bool) (status : Nat)
        (body : Option Json) (resp : SearchResponse),
        searxngSearch query maxResults ok status body = .ok resp →
        resp.results.length ≤ maxResultsOrDefault maxResults) ∧
    (∀ (query : String) (maxResults : Option Nat) (status : Nat) (data : Json),
        data.getField "results" = some (Json.arr []) →
        tavilySearch query maxResults true status (some data) = .ok ⟨query, []⟩) ∧
    (∀ (query : String) (maxResults : Option Nat) (status : Nat) (data : Json),
        data.getField "organic_results" = some (Json.arr []) →
        serpApiSearch query maxResults true status (some data) = .ok ⟨query, []⟩) ∧
    (∀ (query : String) (maxResults : Option Nat) (status : Nat) (data : Json),
        data.getField "results" = some (Json.arr []) →
        searxngSearch query maxResults true status (some data) = .ok ⟨query, []⟩) ∧
    (∀ (query : String) (maxResults : Option Nat) (status : Nat) (body : Option Json),
        ∃ e, tavilySearch query maxResults false status body = .error e) ∧
    (∀ (query : String) (maxResults : Option Nat) (status : Nat) (body : Option Json),
        ∃ e, serpApiSearch query maxResults false status body = .error e) ∧
    (∀ (query : String) (maxResults : Option Nat) (status : Nat) (body : Option Json),
        ∃ e, searxngSearch query maxResults false status body = .error e) := by
  refine ⟨?_, ?_, ?_, ?_, ?_, ?_, ?_, ?_, ?_⟩
  · intro query maxResults status data elems h
    refine ⟨⟨query, elems.map (fun r =>
      { title := r.getField "title", url := r.getField "url",
        content := r.getField "content", score := r.getField "score" })⟩, ?_, by simp⟩
    simp [tavilySearch, h]
  · intro query maxResults ok status body resp h
    cases ok with
    | false => simp [serpApiSearch] at h
    | true =>
        cases body with
        | none => simp [serpApiSearch] at h
        | some data =>
            unfold serpApiSearch at h
            rw [if_neg (by simp)] at h
            simp only [] at h
            split at h
            · injection h with h'; subst h'; simp
            · injection h with h'; subst h'; simp
            · injection h with h'; subst h'
              simpa using List.length_take_le _ _
            · exact Except.noConfusion h
  · intro query maxResults ok status body resp h
    cases ok with
    | false => simp [searxngSearch] at h
    | true =>
        cases body with
        | none => simp [searxngSearch] at h
        | some data =>
            unfold searxngSearch at h
            rw [if_neg (by simp)] at h
            simp only [] at h
            split at h
            · injection h with h'; subst h'
              simpa using List.length_take_le _ _
            · exact Except.noConfusion h
  · intro query maxResults status data h
    simp [tavilySearch, h]
  · intro query maxResults status data h
    simp [serpApiSearch, h]
  · intro query maxResults status data h
    simp [searxngSearch, h, jsOrElse, jsTruthy]
  · intro query maxResults status body
    exact ⟨_, rfl⟩
  · intro query maxResults status body
    exact ⟨_, rfl⟩
  · intro query maxResults status body
    exact ⟨_, rfl⟩

theorem search_provider_contract_witness :
    (∃ resp, tavilySearch "q" (some 5) true 200 (some tavilyBody6) = .ok resp ∧
      resp.results.length = 6) ∧
    (⟨"q", []⟩ : SearchResponse).results.length ≤ maxResultsOrDefault (some 5) ∧
    (⟨"q", []⟩ : SearchResponse).results.length ≤ maxResultsOrDefault (some 5) ∧
    tavilySearch "q" (some 5) true 200
        (some (Json.obj [("results", Json.arr [])])) = .ok ⟨"q", []⟩ ∧
    serpApiSearch "q" (some 5) true 200
        (some (Json.obj [("organic_results", Json.arr [])])) = .ok ⟨"q", []⟩ ∧
    searxngSearch "q" (some 5) true 200
        (some (Json.obj [("results", Json.arr [])])) = .ok ⟨"q", []⟩ ∧
    (∃ e, tavilySearch "q" (some 5) false 503 none = .error e) ∧
    (∃ e, serpApiSearch "q" (some 5) false 503 none = .error e) ∧
    (∃ e, searxngSearch "q" (some 5) false 503 none = .error e) :=
  ⟨search_provider_contract.1 "q" (some 5) 200 tavilyBody6 _ rfl,
    search_provider_contract.2.1 "q" (some 5) true 200
      (some (Json.obj [("organic_results", Json.arr [])])) ⟨"q", []⟩ rfl,
    search_provider_contract.2.2.1 "q" (some 5) true 200
      (some (Json.obj [("results", Json.arr [])])) ⟨"q", []⟩ rfl,
    search_provider_contract.2.2.2.1 "q" (some 5) 200 _ rfl,
    search_provider_contract.2.2.2.2.1 "q" (some 5) 200 _ rfl,
    search_provider_contract.2.2.2.2.2.1 "q" (some 5) 200 _ rfl,
    search_provider_contract.2.2.2.2.2.2.1 "q" (some 5) 503 none,
    search_provider_contract.2.2.2.2.2.2.2.1 "q" (some 5) 503 none,
    search_provider_contract.2.2.2.2.2.2.2.2 "q" (some 5) 503 none⟩

/-- C10: `performSearch` never raises — it is a total function into a
plain result list — and it returns the empty list whenever no search
service is selected, the selected service's `type` matches none of the
three known providers, or the matching provider call throws. -/
theorem performSearch_failure_yields_empty :
    (∀ (env : ProviderEnv) (query : String),
        performSearch none env query = []) ∧
    (∀ (svc : SearchService) (env : ProviderEnv) (query : String),
        svc.type ≠ "tavily" → svc.type ≠ "serpapi" → svc.type ≠ "searxng" →
        performSearch (some svc) env query = []) ∧
    (∀ (svc : SearchService) (env : ProviderEnv) (query : String) (e : String),
        (svc.type = "tavily" ∧ env.tav query = .error e) ∨
        (svc.type = "serpapi" ∧ env.serp query = .error e) ∨
        (svc.type = "searxng" ∧ env.sx query = .error e) →
        performSearch (some svc) env query = []) := by
  refine ⟨fun env query => rfl, ?_, ?_⟩
  · intro svc env query h1 h2 h3
    simp [performSearch, h1, h2, h3]
  · intro svc env query e h
    rcases h with ⟨ht, he⟩ | ⟨ht, he⟩ | ⟨ht, he⟩ <;> simp [performSearch, ht, he]

theorem performSearch_failure_yields_empty_witness :
    performSearch none ⟨fun _ => .error "x", fun _ => .error "x", fun _ => .error "x"⟩ "q" = [] ∧
    performSearch (some ⟨"s1", "svc", "bing", "k", none, none, none, true⟩)
      ⟨fun _ => .error "x", fun _ => .error "x", fun _ => .error "x"⟩ "q" = [] ∧
    performSearch (some ⟨"s1", "svc", "tavily", "k", none, none, none, true⟩)
      ⟨fun _ => .error "down", fun _ => .error "down", fun _ => .error "down"⟩ "q" = [] :=
  ⟨performSearch_failure_yields_empty.1 _ "q",
    performSearch_failure_yields_empty.2.1
      ⟨"s1", "svc", "bing", "k", none, none, none, true⟩ _ "q"
      (by decide) (by decide) (by decide),
    performSearch_failure_yields_empty.2.2
      ⟨"s1", "svc", "tavily", "k", none, none, none, true⟩ _ "q" "down"
      (Or.inl ⟨rfl, rfl⟩)⟩

theorem token_delta_frame_filter_witness :
    (jsTrim "data: \x7b\"choices\":[\x7b\"delta\":\x7b\"content\":\"Hello\"\x7d\x7d]\x7d" ≠ "" ∧
      jsTrim "data: \x7b\"choices\":[\x7b\"delta\":\x7b\"content\":\"Hello\"\x7d\x7d]\x7d" ≠ "data: [DONE]" ∧
      jsStartsWith (jsTrim "data: \x7b\"choices\":[\x7b\"delta\":\x7b\"content\":\"Hello\"\x7d\x7d]\x7d")
        "data: " = true) ∧
    processLineOpenAI fixtureParse "data: oops" = none ∧
    (runStreamLoop (processLineOpenAI fixtureParse)
        ["data: \x7b\"choices\":[\x7b\"delta\":\x7b\"content\":\"Hello\"\x7d\x7d]\x7d\n",
          "data: oops\n",
          "data: \x7b\"choices\":[\x7b\"delta\":\x7b\"content\":\" world\"\x7d\x7d]\x7d\n"] "" =
      runStreamLoop (processLineOpenAI fixtureParse)
        ["data: \x7b\"choices\":[\x7b\"delta\":\x7b\"content\":\"Hello\"\x7d\x7d]\x7d\n",
          "data: \x7b\"choices\":[\x7b\"delta\":\x7b\"content\":\" world\"\x7d\x7d]\x7d\n"] "") :=
  ⟨token_delta_frame_filter.1 fixtureParse
      "data: \x7b\"choices\":[\x7b\"delta\":\x7b\"content\":\"Hello\"\x7d\x7d]\x7d" (by decide),
    token_delta_frame_filter.2.2.1 fixtureParse "data: oops" "oops" (by decide)
      (Or.inl rfl),
    (token_delta_frame_filter.2.2.2 fixtureParse
      ["data: \x7b\"choices\":[\x7b\"delta\":\x7b\"content\":\"Hello\"\x7d\x7d]\x7d\n",
        "data: oops\n",
        "data: \x7b\"choices\":[\x7b\"delta\":\x7b\"content\":\" world\"\x7d\x7d]\x7d\n"]
      ["data: \x7b\"choices\":[\x7b\"delta\":\x7b\"content\":\"Hello\"\x7d\x7d]\x7d\n",
        "data: \x7b\"choices\":[\x7b\"delta\":\x7b\"content\":\" world\"\x7d\x7d]\x7d\n"]
      ["data: \x7b\"choices\":[\x7b\"delta\":\x7b\"content\":\"Hello\"\x7d\x7d]\x7d"]
      ["data: \x7b\"choices\":[\x7b\"delta\":\x7b\"content\":\" world\"\x7d\x7d]\x7d"]
      "data: oops" "oops" (by decide) (by decide) (by decide)
      (Or.inl rfl)).1⟩

theorem remove_cancels_handle_clear_does_not_witness :
    ((removePanelView liveHandleState "1").abortLog =
        liveHandleState.abortLog ++ ["1"] ∧
      (removePanelView liveHandleState "1").controllers =
        mapDelete (mapSet liveHandleState.controllers "1" true) "1" ∧
      (removePanelView liveHandleState "1").panels =
        removeFirstPanel liveHandleState.panels "1") ∧
    ((clearPanelView liveHandleState "1").controllers =
        liveHandleState.controllers ∧
      (clearPanelView liveHandleState "1").abortLog = liveHandleState.abortLog ∧
      (clearPanelView liveHandleState "1").panels =
        clearComparePanel liveHandleState.panels "1") :=
  ⟨remove_cancels_handle_clear_does_not.1 liveHandleState "1" (by decide) (by decide),
    remove_cancels_handle_clear_does_not.2 liveHandleState "1"⟩

end LlmsCompare
